import Mathlib

/-!
Verification of the connection-handshake state machine of `rust-postgres`
(`src/tokio-postgres/src/proto/handshake.rs`), as a shallow embedding.

Each `poll_*` definition below embeds the body of the corresponding
`poll_*` method of `impl PollHandshake for Handshake`.  Network reads are
modelled by passing the received item (`Option BackendMessage`, or the
single SSL-response byte) as an argument; writes performed by a step are
returned as a list of `FrontendMessage`s.  The external SCRAM engine is
kept opaque, as a record of operations over an abstract state type `σ`.
-/

namespace Handshake

/-- Host of the connection, `params::Host`. -/
inductive Host
  | tcp (domain : String)
  | unix (path : String)
  deriving DecidableEq, Repr

/-- A user: name plus optional password (`params::User`). -/
structure User where
  name : String
  password : Option String
  deriving DecidableEq, Repr

/-- Connection parameters (`params::ConnectParams`), restricted to the
fields the handshake reads. -/
structure ConnectParams where
  host : Host
  user : Option User
  database : Option String
  options : List (String × String)
  deriving DecidableEq, Repr

/-- TLS mode; the connector object inside `Prefer`/`Require` is an external
collaborator and is not modelled. -/
inductive TlsMode
  | none
  | prefer
  | require
  deriving DecidableEq, Repr

/-- Channel-binding classification
(`postgres_protocol::authentication::sasl::ChannelBinding`). -/
inductive ChannelBinding
  | tlsUnique (data : List Nat)
  | tlsServerEndPoint (data : List Nat)
  | unsupported
  | unrequested
  deriving DecidableEq, Repr

/-- Cancellation credentials (`CancelData`). -/
structure CancelData where
  process_id : Nat
  secret_key : Nat
  deriving DecidableEq, Repr

/-- Backend protocol messages, restricted to the constructors the handshake
matches on (`postgres_protocol::message::backend::Message`); `other` stands
for every remaining constructor of the Rust enum. -/
inductive BackendMessage
  | authenticationOk
  | authenticationCleartextPassword
  | authenticationMd5Password (salt : List Nat)
  | authenticationSasl (mechanisms : List String)
  | authenticationSaslContinue (data : List Nat)
  | authenticationSaslFinal (data : List Nat)
  | authenticationKerberosV5
  | authenticationScmCredential
  | authenticationGss
  | authenticationSspi
  | errorResponse (body : String)
  | noticeResponse (body : String)
  | backendKeyData (process_id : Nat) (secret_key : Nat)
  | parameterStatus (name value : String)
  | readyForQuery
  | other
  deriving DecidableEq, Repr

/-- Frontend messages written by the handshake
(`postgres_protocol::message::frontend`). -/
inductive FrontendMessage
  | sslRequest
  | startup (fields : List (String × String))
  | password (credential : String)
  | saslInitialResponse (mechanism : String) (data : List Nat)
  | saslResponse (data : List Nat)
  deriving DecidableEq, Repr

/-- Terminal errors of the handshake, one constructor per distinct error
construction in `handshake.rs` (`error::tls`, `bad_response`,
`disconnected`, `error::connect`, `error::__db`, `io::Error::new`). -/
inductive HsError
  | tls (msg : String)
  | badResponse
  | disconnected
  | connect (msg : String)
  | db (body : String)
  | ioError (msg : String)
  deriving DecidableEq, Repr

/-- Embeds `missing_password()` at the bottom of `handshake.rs`. -/
def missing_password : HsError :=
  .connect "a password was requested but not provided"

/-- Embeds `sasl::SCRAM_SHA_256`. -/
def SCRAM_SHA_256 : String := "SCRAM-SHA-256"

/-- Embeds `sasl::SCRAM_SHA_256_PLUS`. -/
def SCRAM_SHA_256_PLUS : String := "SCRAM-SHA-256-PLUS"

/-- The channel-binding material the stream exposes
(`TlsStream::tls_unique` / `TlsStream::tls_server_end_point`). -/
structure StreamInfo where
  tls_unique : Option (List Nat)
  tls_server_end_point : Option (List Nat)
  deriving DecidableEq, Repr

/-- The two mutable flags of the mechanism-scanning loop in
`poll_reading_auth`. -/
structure SaslFlags where
  has_scram : Bool
  has_scram_plus : Bool
  deriving DecidableEq, Repr

/-- The body of the `while let Some(mechanism) = mechanisms.next()` loop of
`poll_reading_auth`: one advertised mechanism updates the two flags. -/
def scanStep (flags : SaslFlags) (m : String) : SaslFlags :=
  if m = SCRAM_SHA_256 then { flags with has_scram := true }
  else if m = SCRAM_SHA_256_PLUS then { flags with has_scram_plus := true }
  else flags

/-- The `while let Some(mechanism) = mechanisms.next()` loop of
`poll_reading_auth`: scan the advertised mechanisms, setting `has_scram`
and `has_scram_plus`. -/
def scanMechanisms (mechanisms : List String) : SaslFlags :=
  mechanisms.foldl scanStep ⟨false, false⟩

/-- The `let (channel_binding, mechanism) = if has_scram_plus { ... }`
expression of `poll_reading_auth` (lines 288-303): choose the channel
binding and SASL mechanism from the two flags and the available binding
material. -/
def chooseSasl (flags : SaslFlags) (channel_binding : Option ChannelBinding) :
    Except HsError (ChannelBinding × String) :=
  if flags.has_scram_plus then
    match channel_binding with
    | some cb => .ok (cb, SCRAM_SHA_256_PLUS)
    | none => .ok (.unsupported, SCRAM_SHA_256)
  else if flags.has_scram then
    match channel_binding with
    | some _ => .ok (.unrequested, SCRAM_SHA_256)
    | none => .ok (.unsupported, SCRAM_SHA_256)
  else .error (.ioError "unsupported SASL authentication")

/-- The channel-binding material of a stream, `tls_unique` preferred, then
`tls_server_end_point` (the `.map(...).or_else(...)` chain of
`poll_reading_auth`). -/
def streamChannelBinding (stream : StreamInfo) : Option ChannelBinding :=
  (stream.tls_unique.map ChannelBinding.tlsUnique).orElse
    (fun _ => stream.tls_server_end_point.map ChannelBinding.tlsServerEndPoint)

/-- The §4.2 decision table, written from the words of the spec: the five
priority-ordered cases for SASL mechanism selection, as a function of the
advertised mechanism set and the available binding material. -/
def specSaslTable (mechanisms : List String) (channel_binding : Option ChannelBinding) :
    Except HsError (ChannelBinding × String) :=
  if SCRAM_SHA_256_PLUS ∈ mechanisms then
    match channel_binding with
    | some b => .ok (b, SCRAM_SHA_256_PLUS)
    | none => .ok (.unsupported, SCRAM_SHA_256)
  else if SCRAM_SHA_256 ∈ mechanisms then
    match channel_binding with
    | some _ => .ok (.unrequested, SCRAM_SHA_256)
    | none => .ok (.unsupported, SCRAM_SHA_256)
  else .error (.ioError "unsupported SASL authentication")

/-- Lower-case hexadecimal digit. -/
def hexDigit (n : Nat) : Char :=
  if n < 10 then Char.ofNat (48 + n) else Char.ofNat (87 + n)

/-- Lower-case hexadecimal rendering of a byte list, two digits per byte. -/
def toHex (bytes : List Nat) : String :=
  bytes.foldl (fun s b => (s.push (hexDigit (b / 16 % 16))).push (hexDigit (b % 16))) ""

/-- The bytes of a string, modelled as its character codes (identical to
the UTF-8 bytes on the ASCII strings the protocol exchanges here). -/
def strBytes (s : String) : List Nat :=
  s.data.map (fun c => c.toNat)

/-- Modelled from the spec: `postgres_protocol::authentication::md5_hash`
is not under `src/`; §4.1 fixes the two-round construction — hash1 =
hex(MD5(password ∥ username)), output = "md5" ∥ hex(MD5(hash1 ∥ salt)).
The MD5 digest itself is an external primitive, passed in as `md5`. -/
def md5_hash (md5 : List Nat → List Nat) (username password : List Nat)
    (salt : List Nat) : String :=
  let hash1 := toHex (md5 (password ++ username))
  "md5" ++ toHex (md5 (strBytes hash1 ++ salt))

/-- The opaque SCRAM engine (`postgres_protocol::authentication::sasl::
ScramSha256`), as the three-operation interface the handshake consumes:
produce the next outgoing payload, absorb a server challenge, absorb and
verify the final server signature.  `σ` is the private engine state;
construction (`ScramSha256::new`) is modelled as total, its only failure
mode being random-nonce generation, which is outside this model. -/
structure ScramEngine (σ : Type) where
  new : List Nat → ChannelBinding → σ
  message : σ → List Nat
  update : σ → List Nat → Except String σ
  finish : σ → List Nat → Except String Unit

/-- A SCRAM engine with trivial state, used to instantiate theorems at
concrete inputs. -/
def unitEngine : ScramEngine Unit where
  new := fun _ _ => ()
  message := fun _ => []
  update := fun _ _ => .ok ()
  finish := fun _ _ => .ok ()

/-- The transitions `poll_reading_auth` may take, mirroring the generated
`AfterReadingAuth` type of the `state_machine_future` attribute. -/
inductive AfterReadingAuth (σ : Type)
  | readingInfo
  | sendingPassword
  | sendingSasl (scram : σ)
  deriving DecidableEq

/-- Embeds `poll_reading_auth`: dispatch on the authentication request.  The
received item is `none` when the stream ended.  On success the result
carries the next state and the frontend messages written by the step. -/
def poll_reading_auth {σ : Type} (md5 : List Nat → List Nat) (E : ScramEngine σ)
    (stream : StreamInfo) (user : User) (message : Option BackendMessage) :
    Except HsError (AfterReadingAuth σ × List FrontendMessage) :=
  match message with
  | some .authenticationOk => .ok (.readingInfo, [])
  | some .authenticationCleartextPassword =>
    match user.password with
    | none => .error missing_password
    | some pass => .ok (.sendingPassword, [.password pass])
  | some (.authenticationMd5Password salt) =>
    match user.password with
    | none => .error missing_password
    | some pass =>
      let output := md5_hash md5 (strBytes user.name) (strBytes pass) salt
      .ok (.sendingPassword, [.password output])
  | some (.authenticationSasl mechanisms) =>
    match user.password with
    | none => .error missing_password
    | some pass =>
      let flags := scanMechanisms mechanisms
      let channel_binding := streamChannelBinding stream
      match chooseSasl flags channel_binding with
      | .error e => .error e
      | .ok (cb, mechanism) =>
        let scram := E.new (strBytes pass) cb
        .ok (.sendingSasl scram, [.saslInitialResponse mechanism (E.message scram)])
  | some .authenticationKerberosV5 => .error (.ioError "unsupported authentication method")
  | some .authenticationScmCredential => .error (.ioError "unsupported authentication method")
  | some .authenticationGss => .error (.ioError "unsupported authentication method")
  | some .authenticationSspi => .error (.ioError "unsupported authentication method")
  | some (.errorResponse body) => .error (.db body)
  | some _ => .error .badResponse
  | none => .error .disconnected

/-- The transitions `poll_reading_sasl` may take (`AfterReadingSasl`). -/
inductive AfterReadingSasl (σ : Type)
  | sendingSasl (scram : σ)
  | readingAuthCompletion
  deriving DecidableEq

/-- Embeds `poll_reading_sasl`: feed a SASL challenge or the final signature to
the engine. -/
def poll_reading_sasl {σ : Type} (E : ScramEngine σ) (scram : σ)
    (message : Option BackendMessage) :
    Except HsError (AfterReadingSasl σ × List FrontendMessage) :=
  match message with
  | some (.authenticationSaslContinue d) =>
    match E.update scram d with
    | .error e => .error (.ioError e)
    | .ok scram2 => .ok (.sendingSasl scram2, [.saslResponse (E.message scram2)])
  | some (.authenticationSaslFinal d) =>
    match E.finish scram d with
    | .error e => .error (.ioError e)
    | .ok _ => .ok (.readingAuthCompletion, [])
  | some (.errorResponse body) => .error (.db body)
  | some _ => .error .badResponse
  | none => .error .disconnected

/-- Embeds `poll_reading_auth_completion`: only `AuthenticationOk` advances (to
`ReadingInfo`, represented by `.ok ()`). -/
def poll_reading_auth_completion (message : Option BackendMessage) :
    Except HsError Unit :=
  match message with
  | some .authenticationOk => .ok ()
  | some (.errorResponse body) => .error (.db body)
  | some _ => .error .badResponse
  | none => .error .disconnected

/-- Embeds `HashMap::insert` on the parameter map, observationally: replace the
binding when the key is present, else append it. -/
def insertParam (m : List (String × String)) (k v : String) :
    List (String × String) :=
  match m with
  | [] => [(k, v)]
  | (n, w) :: rest =>
    if n = k then (n, v) :: rest else (n, w) :: insertParam rest k v

/-- Lookup in the parameter map. -/
def lookupParam (m : List (String × String)) (k : String) : Option String :=
  match m with
  | [] => none
  | (n, v) :: rest => if n = k then some v else lookupParam rest k

/-- Embeds `poll_reading_info`: the message loop of the final phase, consuming
messages until `ReadyForQuery`, an error, or the end of the stream (the
exhaustion of the input list).  On success it yields the `CancelData` and
parameter map handed to the produced `Connection`. -/
def poll_reading_info (cancel_data : Option CancelData)
    (parameters : List (String × String)) :
    List BackendMessage → Except HsError (CancelData × List (String × String))
  | [] => .error .disconnected
  | m :: rest =>
    match m with
    | .backendKeyData pid key =>
      poll_reading_info (some ⟨pid, key⟩) parameters rest
    | .parameterStatus n v =>
      poll_reading_info cancel_data (insertParam parameters n v) rest
    | .readyForQuery =>
      match cancel_data with
      | none => .error (.ioError "BackendKeyData message missing")
      | some cd => .ok (cd, parameters)
    | .errorResponse body => .error (.db body)
    | .noticeResponse _ => poll_reading_info cancel_data parameters rest
    | _ => .error .badResponse

/-- The transitions `poll_start` may take (`AfterStart`): straight to
`BuildingStartup` when TLS mode is `None`, else to `SendingSsl` with the
`required` flag. -/
inductive AfterStart
  | buildingStartup
  | sendingSsl (required : Bool)
  deriving DecidableEq, Repr

/-- Embeds `poll_start`: dispatch on the TLS mode; `Prefer`/`Require` write the
`ssl_request` payload. -/
def poll_start (tls : TlsMode) : AfterStart × List FrontendMessage :=
  match tls with
  | .none => (.buildingStartup, [])
  | .prefer => (.sendingSsl false, [.sslRequest])
  | .require => (.sendingSsl true, [.sslRequest])

/-- The transitions `poll_reading_ssl` may take (`AfterReadingSsl`). -/
inductive AfterReadingSsl
  | connectingTls
  | buildingStartup
  deriving DecidableEq, Repr

/-- Embeds `poll_reading_ssl`: dispatch on the single response byte (83 is the
byte of the character S, 78 of N). -/
def poll_reading_ssl (host : Host) (required : Bool) (byte : Nat) :
    Except HsError AfterReadingSsl :=
  if byte = 83 then
    match host with
    | .tcp _ => .ok .connectingTls
    | .unix _ => .error (.tls "TLS over unix sockets not supported")
  else if byte = 78 then
    if required then .error (.tls "TLS was required but not supported")
    else .ok .buildingStartup
  else .error .badResponse

/-- Embeds `poll_building_startup`: require a user, then assemble the startup
message fields by chaining the caller-supplied options with the fixed
`client_encoding`, `timezone`, `user` and optional `database` entries. -/
def poll_building_startup (params : ConnectParams) :
    Except HsError (User × List (String × String)) :=
  match params.user with
  | none => .error (.connect "user missing from connection parameters")
  | some user =>
    let options := params.options
    let client_encoding := [("client_encoding", "UTF8")]
    let timezone := [("timezone", "GMT")]
    let user_field := [("user", user.name)]
    let database := (params.database.map (fun s => ("database", s))).toList
    .ok (user, options ++ client_encoding ++ timezone ++ user_field ++ database)

/-- Result of a whole handshake run: the outcome together with every
frontend message written, in order. -/
abbrev RunResult := Except HsError (CancelData × List (String × String)) × List FrontendMessage

/-- Run from `ReadingAuthCompletion`: one completion message, then the
info loop. -/
def runAuthCompletion (msgs : List BackendMessage) (sent : List FrontendMessage) :
    RunResult :=
  match poll_reading_auth_completion msgs.head? with
  | .error e => (.error e, sent)
  | .ok _ => (poll_reading_info none [] msgs.tail, sent)

/-- Run the SASL challenge/response loop from `ReadingSasl`. -/
def runSasl {σ : Type} (E : ScramEngine σ) (scram : σ) :
    List BackendMessage → List FrontendMessage → RunResult
  | [], sent =>
    match poll_reading_sasl E scram none with
    | .error e => (.error e, sent)
    | .ok _ => (.error .disconnected, sent)
  | m :: rest, sent =>
    match poll_reading_sasl E scram (some m) with
    | .error e => (.error e, sent)
    | .ok (.sendingSasl scram2, out) => runSasl E scram2 rest (sent ++ out)
    | .ok (.readingAuthCompletion, out) => runAuthCompletion rest (sent ++ out)

/-- Run from `ReadingAuth`. -/
def runAuth {σ : Type} (md5 : List Nat → List Nat) (E : ScramEngine σ)
    (stream : StreamInfo) (user : User) (msgs : List BackendMessage)
    (sent : List FrontendMessage) : RunResult :=
  match poll_reading_auth md5 E stream user msgs.head? with
  | .error e => (.error e, sent)
  | .ok (.readingInfo, out) => (poll_reading_info none [] msgs.tail, sent ++ out)
  | .ok (.sendingPassword, out) => runAuthCompletion msgs.tail (sent ++ out)
  | .ok (.sendingSasl scram, out) => runSasl E scram msgs.tail (sent ++ out)

/-- Run from `BuildingStartup`: build and send the startup message, then
authenticate. -/
def runBuildingStartup {σ : Type} (md5 : List Nat → List Nat) (E : ScramEngine σ)
    (stream : StreamInfo) (params : ConnectParams) (msgs : List BackendMessage)
    (sent : List FrontendMessage) : RunResult :=
  match poll_building_startup params with
  | .error e => (.error e, sent)
  | .ok (user, fields) =>
    runAuth md5 E stream user msgs (sent ++ [.startup fields])

/-- A whole handshake run.  `sslByte` is the one-byte server answer to
the SSL request (read only when one is sent); `tlsOk` tells whether the
external TLS upgrade succeeds; `msgs` is the backend message stream after
the startup message is sent. -/
def runHandshake {σ : Type} (md5 : List Nat → List Nat) (E : ScramEngine σ)
    (stream : StreamInfo) (tlsOk : Bool) (params : ConnectParams)
    (tls : TlsMode) (sslByte : Nat) (msgs : List BackendMessage) : RunResult :=
  match poll_start tls with
  | (.buildingStartup, out) => runBuildingStartup md5 E stream params msgs out
  | (.sendingSsl required, out) =>
    match poll_reading_ssl params.host required sslByte with
    | .error e => (.error e, out)
    | .ok .connectingTls =>
      if tlsOk then runBuildingStartup md5 E stream params msgs out
      else (.error (.tls "TLS handshake failed"), out)
    | .ok .buildingStartup => runBuildingStartup md5 E stream params msgs out

theorem scanMechanisms_go (mechanisms : List String) (a b : Bool) :
    mechanisms.foldl scanStep ⟨a, b⟩ =
      ⟨a || decide (SCRAM_SHA_256 ∈ mechanisms),
       b || decide (SCRAM_SHA_256_PLUS ∈ mechanisms)⟩ := by
  induction mechanisms generalizing a b with
  | nil => simp
  | cons m rest ih =>
    by_cases h1 : m = SCRAM_SHA_256
    · subst h1
      have hne : ¬ (SCRAM_SHA_256_PLUS = SCRAM_SHA_256) := by decide
      simp [List.foldl_cons, scanStep, ih, List.mem_cons, hne]
    · by_cases h2 : m = SCRAM_SHA_256_PLUS
      · subst h2
        have h1s : ¬ (SCRAM_SHA_256 = SCRAM_SHA_256_PLUS) := by decide
        simp [List.foldl_cons, scanStep, h1, ih, List.mem_cons, h1s]
      · have h1s : ¬ (SCRAM_SHA_256 = m) := fun h => h1 h.symm
        have h2s : ¬ (SCRAM_SHA_256_PLUS = m) := fun h => h2 h.symm
        simp [List.foldl_cons, scanStep, h1, h2, ih, List.mem_cons, h1s, h2s]

theorem scanMechanisms_eq (mechanisms : List String) :
    scanMechanisms mechanisms =
      ⟨decide (SCRAM_SHA_256 ∈ mechanisms), decide (SCRAM_SHA_256_PLUS ∈ mechanisms)⟩ := by
  unfold scanMechanisms
  rw [scanMechanisms_go]
  simp

/-- Claim C1: SASL mechanism selection is a pure function of the advertised
mechanism set and the available channel-binding material, and for every
advertised set and binding state the chosen (channel-binding, mechanism)
pair — PLUS with binding gives (bytes, SCRAM-SHA-256-PLUS); PLUS without
binding gives (unsupported, SCRAM-SHA-256); plain only with binding gives
(unrequested, SCRAM-SHA-256); plain only without binding gives
(unsupported, SCRAM-SHA-256); neither gives the unsupported-authentication
error — agrees with the priority table of §4.2 of the spec. -/
theorem sasl_selection_matches_spec_table (mechanisms : List String)
    (channel_binding : Option ChannelBinding) :
    chooseSasl (scanMechanisms mechanisms) channel_binding =
      specSaslTable mechanisms channel_binding := by
  rw [scanMechanisms_eq]
  unfold chooseSasl specSaslTable
  by_cases hp : SCRAM_SHA_256_PLUS ∈ mechanisms
  · simp [hp]
  · by_cases hs : SCRAM_SHA_256 ∈ mechanisms
    · simp [hp, hs]
    · simp [hp, hs]

/-- Specification helper: the payload of the last key-data message of a
list, if any, as the step-wise fold the info loop performs. -/
def updKey (acc : Option CancelData) (m : BackendMessage) : Option CancelData :=
  match m with
  | .backendKeyData pid key => some ⟨pid, key⟩
  | _ => acc

/-- Specification helper: the `CancelData` of the last key-data message in
a list, if any. -/
def lastKeyData (msgs : List BackendMessage) : Option CancelData :=
  msgs.foldl updKey none

theorem poll_reading_info_ok (msgs : List BackendMessage) :
    ∀ (cd0 : Option CancelData) (ps : List (String × String))
      (cd : CancelData) (ps2 : List (String × String)),
      poll_reading_info cd0 ps msgs = .ok (cd, ps2) →
      ∃ pre post, msgs = pre ++ .readyForQuery :: post ∧
        pre.foldl updKey cd0 = some cd := by
  induction msgs with
  | nil => intro cd0 ps cd ps2 h; simp [poll_reading_info] at h
  | cons m rest ih =>
    intro cd0 ps cd ps2 h
    cases m with
    | backendKeyData pid key =>
      obtain ⟨pre, post, hsplit, hfold⟩ := ih _ _ _ _ h
      exact ⟨.backendKeyData pid key :: pre, post, by simp [hsplit],
        by simpa [updKey] using hfold⟩
    | parameterStatus n v =>
      obtain ⟨pre, post, hsplit, hfold⟩ := ih _ _ _ _ h
      exact ⟨.parameterStatus n v :: pre, post, by simp [hsplit],
        by simpa [updKey] using hfold⟩
    | noticeResponse b =>
      obtain ⟨pre, post, hsplit, hfold⟩ := ih _ _ _ _ h
      exact ⟨.noticeResponse b :: pre, post, by simp [hsplit],
        by simpa [updKey] using hfold⟩
    | readyForQuery =>
      cases cd0 with
      | none => simp [poll_reading_info] at h
      | some c =>
        simp [poll_reading_info] at h
        exact ⟨[], rest, rfl, by simp [h.1]⟩
    | authenticationOk => simp [poll_reading_info] at h
    | authenticationCleartextPassword => simp [poll_reading_info] at h
    | authenticationMd5Password salt => simp [poll_reading_info] at h
    | authenticationSasl mechs => simp [poll_reading_info] at h
    | authenticationSaslContinue d => simp [poll_reading_info] at h
    | authenticationSaslFinal d => simp [poll_reading_info] at h
    | authenticationKerberosV5 => simp [poll_reading_info] at h
    | authenticationScmCredential => simp [poll_reading_info] at h
    | authenticationGss => simp [poll_reading_info] at h
    | authenticationSspi => simp [poll_reading_info] at h
    | errorResponse b => simp [poll_reading_info] at h
    | other => simp [poll_reading_info] at h

theorem foldl_updKey_some (pre : List BackendMessage) :
    ∀ (acc : Option CancelData) (cd : CancelData),
      pre.foldl updKey acc = some cd →
      acc = some cd ∨ BackendMessage.backendKeyData cd.process_id cd.secret_key ∈ pre := by
  induction pre with
  | nil => intro acc cd h; exact .inl (by simpa using h)
  | cons m rest ih =>
    intro acc cd h
    cases m with
    | backendKeyData pid key =>
      rcases ih _ _ (by simpa [updKey] using h) with h2 | h2
      · obtain rfl : cd = ⟨pid, key⟩ := by simpa using h2.symm
        exact .inr (by simp)
      · exact .inr (by simp [h2])
    | parameterStatus n v =>
      rcases ih _ _ (by simpa [updKey] using h) with h2 | h2
      · exact .inl h2
      · exact .inr (by simp [h2])
    | noticeResponse b =>
      rcases ih _ _ (by simpa [updKey] using h) with h2 | h2
      · exact .inl h2
      · exact .inr (by simp [h2])
    | readyForQuery =>
      rcases ih _ _ (by simpa [updKey] using h) with h2 | h2
      · exact .inl h2
      · exact .inr (by simp [h2])
    | errorResponse b =>
      rcases ih _ _ (by simpa [updKey] using h) with h2 | h2
      · exact .inl h2
      · exact .inr (by simp [h2])
    | authenticationOk =>
      rcases ih _ _ (by simpa [updKey] using h) with h2 | h2
      · exact .inl h2
      · exact .inr (by simp [h2])
    | authenticationCleartextPassword =>
      rcases ih _ _ (by simpa [updKey] using h) with h2 | h2
      · exact .inl h2
      · exact .inr (by simp [h2])
    | authenticationMd5Password salt =>
      rcases ih _ _ (by simpa [updKey] using h) with h2 | h2
      · exact .inl h2
      · exact .inr (by simp [h2])
    | authenticationSasl mechs =>
      rcases ih _ _ (by simpa [updKey] using h) with h2 | h2
      · exact .inl h2
      · exact .inr (by simp [h2])
    | authenticationSaslContinue d =>
      rcases ih _ _ (by simpa [updKey] using h) with h2 | h2
      · exact .inl h2
      · exact .inr (by simp [h2])
    | authenticationSaslFinal d =>
      rcases ih _ _ (by simpa [updKey] using h) with h2 | h2
      · exact .inl h2
      · exact .inr (by simp [h2])
    | authenticationKerberosV5 =>
      rcases ih _ _ (by simpa [updKey] using h) with h2 | h2
      · exact .inl h2
      · exact .inr (by simp [h2])
    | authenticationScmCredential =>
      rcases ih _ _ (by simpa [updKey] using h) with h2 | h2
      · exact .inl h2
      · exact .inr (by simp [h2])
    | authenticationGss =>
      rcases ih _ _ (by simpa [updKey] using h) with h2 | h2
      · exact .inl h2
      · exact .inr (by simp [h2])
    | authenticationSspi =>
      rcases ih _ _ (by simpa [updKey] using h) with h2 | h2
      · exact .inl h2
      · exact .inr (by simp [h2])
    | other =>
      rcases ih _ _ (by simpa [updKey] using h) with h2 | h2
      · exact .inl h2
      · exact .inr (by simp [h2])

/-- A message the info loop consumes without recording key data:
a parameter-status or a notice. -/
def benignInfoMessage (m : BackendMessage) : Prop :=
  (∃ n v, m = .parameterStatus n v) ∨ (∃ b, m = .noticeResponse b)

/-- Claim C2: a ReadyForQuery received in the ReadingInfo phase with no
BackendKeyData received during the handshake makes the handshake fail with
the missing-data error, never reaching Finished; conversely a successful
completion of the info loop implies a BackendKeyData message was
received. -/
theorem ready_without_key_data_fails :
    (∀ (pre post : List BackendMessage) (ps : List (String × String)),
      (∀ m ∈ pre, benignInfoMessage m) →
      poll_reading_info none ps (pre ++ .readyForQuery :: post) =
        .error (.ioError "BackendKeyData message missing")) ∧
    (∀ (msgs : List BackendMessage) (ps ps2 : List (String × String))
        (cd : CancelData),
      poll_reading_info none ps msgs = .ok (cd, ps2) →
      ∃ pid key, BackendMessage.backendKeyData pid key ∈ msgs) := by
  constructor
  · intro pre
    induction pre with
    | nil => intro post ps _; simp [poll_reading_info]
    | cons m rest ih =>
      intro post ps hben
      rcases hben m (by simp) with ⟨n, v, rfl⟩ | ⟨b, rfl⟩
      · simpa [poll_reading_info] using ih post (insertParam ps n v)
          (fun x hx => hben x (by simp [hx]))
      · simpa [poll_reading_info] using ih post ps
          (fun x hx => hben x (by simp [hx]))
  · intro msgs ps ps2 cd h
    obtain ⟨pre, post, hsplit, hfold⟩ := poll_reading_info_ok msgs none ps cd ps2 h
    rcases foldl_updKey_some pre none cd hfold with h2 | h2
    · exact absurd h2 (by simp)
    · exact ⟨cd.process_id, cd.secret_key, by simp [hsplit, h2]⟩

/-- Claim C2 witness: a run that sees only a parameter-status before
ReadyForQuery fails with the missing-data error. -/
theorem ready_without_key_data_fails_witness :
    poll_reading_info none []
        [.parameterStatus "server_version" "14.2", .readyForQuery] =
      .error (.ioError "BackendKeyData message missing") :=
  ready_without_key_data_fails.1 [.parameterStatus "server_version" "14.2"] [] []
    (by intro m hm; simp at hm; exact .inl ⟨"server_version", "14.2", hm⟩)

/-- Claim C7: the CancelData reaching the Finished state is sourced from
exactly one server key-data message — the last BackendKeyData received
before ReadyForQuery — and one must exist, else the handshake fails. -/
theorem cancel_data_single_source (msgs : List BackendMessage)
    (ps ps2 : List (String × String)) (cd : CancelData)
    (h : poll_reading_info none ps msgs = .ok (cd, ps2)) :
    ∃ pre post, msgs = pre ++ .readyForQuery :: post ∧
      lastKeyData pre = some cd ∧
      BackendMessage.backendKeyData cd.process_id cd.secret_key ∈ pre := by
  obtain ⟨pre, post, hsplit, hfold⟩ := poll_reading_info_ok msgs none ps cd ps2 h
  refine ⟨pre, post, hsplit, hfold, ?_⟩
  rcases foldl_updKey_some pre none cd hfold with h2 | h2
  · exact absurd h2 (by simp)
  · exact h2

/-- Claim C7 witness: with two key-data messages, the CancelData of the
finished handshake is the last one. -/
theorem cancel_data_single_source_witness :
    ∃ pre post,
      ([.backendKeyData 1 2, .backendKeyData 42 99, .readyForQuery] :
          List BackendMessage) = pre ++ .readyForQuery :: post ∧
      lastKeyData pre = some ⟨42, 99⟩ ∧
      BackendMessage.backendKeyData 42 99 ∈ pre :=
  cancel_data_single_source
    [.backendKeyData 1 2, .backendKeyData 42 99, .readyForQuery] [] [] ⟨42, 99⟩ rfl

/-- Claim C3: for every ConnectParams with a user present, the startup
message fields are, in order: the caller-supplied options in caller order,
then client_encoding=UTF8, then timezone=GMT, then user, then database if
and only if one is configured. -/
theorem startup_field_order (params : ConnectParams) (user : User)
    (h : params.user = some user) :
    poll_building_startup params =
      .ok (user,
        params.options ++
          [("client_encoding", "UTF8"), ("timezone", "GMT"), ("user", user.name)] ++
          match params.database with
          | some d => [("database", d)]
          | none => []) := by
  cases params with
  | mk host u database options =>
    cases h
    cases database <;> simp [poll_building_startup]

/-- Claim C3 witness: options `[("a","b")]`, user `"u"`, database `"d"`
encode exactly as `a=b, client_encoding=UTF8, timezone=GMT, user=u,
database=d`. -/
theorem startup_field_order_witness :
    poll_building_startup
        ⟨.tcp "localhost", some ⟨"u", none⟩, some "d", [("a", "b")]⟩ =
      .ok (⟨"u", none⟩,
        [("a", "b"), ("client_encoding", "UTF8"), ("timezone", "GMT"),
         ("user", "u"), ("database", "d")]) :=
  startup_field_order ⟨.tcp "localhost", some ⟨"u", none⟩, some "d", [("a", "b")]⟩
    ⟨"u", none⟩ rfl

/-- Claim C4: the credential produced in response to
AuthenticationMd5Password is the two-round construction — hash1 =
hex(MD5(password ∥ username)), output = "md5" ∥ hex(MD5(hash1 ∥ salt)) —
for every digest function, user, password and salt. -/
theorem md5_credential {σ : Type} (E : ScramEngine σ) (md5 : List Nat → List Nat)
    (stream : StreamInfo) (user : User) (pass : String) (salt : List Nat)
    (h : user.password = some pass) :
    poll_reading_auth md5 E stream user (some (.authenticationMd5Password salt)) =
      .ok (.sendingPassword,
        [.password ("md5" ++
          toHex (md5 (strBytes (toHex (md5 (strBytes pass ++ strBytes user.name)))
            ++ salt)))]) := by
  simp [poll_reading_auth, h, md5_hash]

/-- Claim C4 witness: user `"u"`, password `"p"`, salt `[1,2,3,4]`, with
the digest instantiated as the identity on byte lists, produces exactly
the double-round credential. -/
theorem md5_credential_witness :
    poll_reading_auth (σ := Unit) (fun l => l) unitEngine ⟨none, none⟩
        ⟨"u", some "p"⟩ (some (.authenticationMd5Password [1, 2, 3, 4])) =
      .ok (.sendingPassword, [.password "md53730373501020304"]) := by
  rw [md5_credential unitEngine (fun l => l) ⟨none, none⟩ ⟨"u", some "p"⟩ "p"
    [1, 2, 3, 4] rfl]
  simp only [Except.ok.injEq, Prod.mk.injEq, List.cons.injEq, and_true, true_and,
    FrontendMessage.password.injEq]
  decide

/-- Claim C5: under TLS mode Require, a decline byte N fails the whole
handshake with the TLS-required error having written only the SSL request
(no startup bytes); any byte other than S (83) or N (78) fails it with
the bad-response error, again with only the SSL request written. -/
theorem tls_require_decline {σ : Type} (E : ScramEngine σ)
    (md5 : List Nat → List Nat) (stream : StreamInfo) (tlsOk : Bool)
    (params : ConnectParams) (msgs : List BackendMessage) (b : Nat) :
    (runHandshake md5 E stream tlsOk params .require 78 msgs =
      (.error (.tls "TLS was required but not supported"), [.sslRequest])) ∧
    (b ≠ 83 → b ≠ 78 →
      runHandshake md5 E stream tlsOk params .require b msgs =
        (.error .badResponse, [.sslRequest])) := by
  constructor
  · simp [runHandshake, poll_start, poll_reading_ssl]
  · intro h83 h78
    simp [runHandshake, poll_start, poll_reading_ssl, h83, h78]

/-- Claim C5 witness: byte N and byte 0 under Require, at a concrete
configuration. -/
theorem tls_require_decline_witness :
    (runHandshake (σ := Unit) (fun l => l) unitEngine ⟨none, none⟩ true
        ⟨.tcp "localhost", some ⟨"u", none⟩, none, []⟩ .require 78 [] =
      (.error (.tls "TLS was required but not supported"), [.sslRequest])) ∧
    (runHandshake (σ := Unit) (fun l => l) unitEngine ⟨none, none⟩ true
        ⟨.tcp "localhost", some ⟨"u", none⟩, none, []⟩ .require 0 [] =
      (.error .badResponse, [.sslRequest])) :=
  ⟨(tls_require_decline unitEngine (fun l => l) ⟨none, none⟩ true
      ⟨.tcp "localhost", some ⟨"u", none⟩, none, []⟩ [] 0).1,
   (tls_require_decline unitEngine (fun l => l) ⟨none, none⟩ true
      ⟨.tcp "localhost", some ⟨"u", none⟩, none, []⟩ [] 0).2
     (by decide) (by decide)⟩

theorem lookup_insertParam (m : List (String × String)) (k v k' : String) :
    lookupParam (insertParam m k v) k' =
      if k = k' then some v else lookupParam m k' := by
  induction m with
  | nil =>
    by_cases h : k = k' <;> simp [insertParam, lookupParam, h]
  | cons p rest ih =>
    obtain ⟨n, w⟩ := p
    by_cases hnk : n = k
    · subst hnk
      by_cases hk : n = k' <;> simp [insertParam, lookupParam, hk]
    · by_cases hk : n = k'
      · subst hk
        have : ¬ k = n := fun h => hnk h.symm
        simp [insertParam, lookupParam, hnk, this]
      · simp [insertParam, lookupParam, hnk, hk, ih]

/-- Specification helper: the last value received for a key in a sequence
of (name, value) pairs. -/
def lastValue (k : String) : List (String × String) → Option String
  | [] => none
  | (n, v) :: rest =>
    match lastValue k rest with
    | some w => some w
    | none => if n = k then some v else none

theorem lookup_foldl_insert (pairs : List (String × String)) :
    ∀ (m : List (String × String)) (k : String),
      lookupParam (pairs.foldl (fun acc p => insertParam acc p.1 p.2) m) k =
        match lastValue k pairs with
        | some w => some w
        | none => lookupParam m k := by
  induction pairs with
  | nil => intro m k; simp [lastValue]
  | cons p rest ih =>
    intro m k
    obtain ⟨n, v⟩ := p
    simp only [List.foldl_cons, ih, lastValue]
    cases lastValue k rest with
    | some w => simp
    | none =>
      by_cases h : n = k <;> simp [lookup_insertParam, h]

theorem poll_reading_info_params (pairs : List (String × String)) :
    ∀ (cd : Option CancelData) (ps : List (String × String))
      (rest : List BackendMessage),
      poll_reading_info cd ps
          (pairs.map (fun p => .parameterStatus p.1 p.2) ++ rest) =
        poll_reading_info cd
          (pairs.foldl (fun acc p => insertParam acc p.1 p.2) ps) rest := by
  induction pairs with
  | nil => intro cd ps rest; simp
  | cons p r ih =>
    intro cd ps rest
    simp [poll_reading_info, ih]

/-- Claim C6: the parameter map is built by upserting each ParameterStatus
message in arrival order; for every sequence of (possibly duplicate-keyed)
pairs delivered as ParameterStatus messages, the map of the completed handshake
binds every key to the last value received for it. -/
theorem parameter_map_last_write_wins (pairs : List (String × String))
    (pid key : Nat) (k : String) :
    poll_reading_info none []
        (pairs.map (fun p => .parameterStatus p.1 p.2) ++
          [.backendKeyData pid key, .readyForQuery]) =
      .ok (⟨pid, key⟩, pairs.foldl (fun acc p => insertParam acc p.1 p.2) []) ∧
    lookupParam (pairs.foldl (fun acc p => insertParam acc p.1 p.2) []) k =
      lastValue k pairs := by
  constructor
  · rw [poll_reading_info_params]
    simp [poll_reading_info]
  · rw [lookup_foldl_insert]
    cases lastValue k pairs <;> simp [lookupParam]

/-- Claim C8 counterexample: a NoticeResponse received in the
ReadingAuthCompletion phase — a message-reading phase — does cause an
error: the step fails with bad_response, refuting the claim that a
NoticeResponse is error-free in every message-reading phase. -/
theorem notice_errors_in_auth_completion :
    poll_reading_auth_completion (some (.noticeResponse "warning")) =
      .error .badResponse := rfl

/-- Claim C8 (amended): a NoticeResponse is ignored only in the
ReadingInfo phase, where it causes no error and leaves the accumulated
cancel-data and parameters unchanged; in the ReadingAuth, ReadingSasl and
ReadingAuthCompletion phases it is an unexpected message and fails the
handshake with bad_response. -/
theorem notice_ignored_only_in_reading_info :
    (∀ (b : String) (cd : Option CancelData) (ps : List (String × String))
        (msgs : List BackendMessage),
      poll_reading_info cd ps (.noticeResponse b :: msgs) =
        poll_reading_info cd ps msgs) ∧
    (∀ (σ : Type) (E : ScramEngine σ) (md5 : List Nat → List Nat)
        (stream : StreamInfo) (user : User) (b : String),
      poll_reading_auth md5 E stream user (some (.noticeResponse b)) =
        .error .badResponse) ∧
    (∀ (σ : Type) (E : ScramEngine σ) (scram : σ) (b : String),
      poll_reading_sasl E scram (some (.noticeResponse b)) =
        .error .badResponse) ∧
    (∀ (b : String),
      poll_reading_auth_completion (some (.noticeResponse b)) =
        .error .badResponse) :=
  ⟨fun _ _ _ _ => rfl, fun _ _ _ _ _ _ => rfl, fun _ _ _ _ => rfl, fun _ => rfl⟩

/-- Claim C9: when the server advertises SCRAM-SHA-256-PLUS but not plain
SCRAM-SHA-256 and no channel-binding material is available, the client
proceeds with the plain SCRAM-SHA-256 mechanism — one the server did not
advertise — tagged channel-binding-unsupported, instead of failing. -/
theorem scram_plus_downgrade {σ : Type} (E : ScramEngine σ)
    (md5 : List Nat → List Nat) (stream : StreamInfo) (user : User)
    (pass : String) (mechanisms : List String)
    (h : user.password = some pass)
    (hU : stream.tls_unique = none)
    (hE : stream.tls_server_end_point = none)
    (hPlus : SCRAM_SHA_256_PLUS ∈ mechanisms)
    (hNo : SCRAM_SHA_256 ∉ mechanisms) :
    poll_reading_auth md5 E stream user (some (.authenticationSasl mechanisms)) =
      .ok (.sendingSasl (E.new (strBytes pass) .unsupported),
        [.saslInitialResponse SCRAM_SHA_256
          (E.message (E.new (strBytes pass) .unsupported))]) := by
  simp [poll_reading_auth, h, scanMechanisms_eq, streamChannelBinding, hU, hE,
    chooseSasl, hPlus, hNo]

/-- Claim C9 witness: advertised set exactly [SCRAM-SHA-256-PLUS], no
binding material. -/
theorem scram_plus_downgrade_witness :
    poll_reading_auth (σ := Unit) (fun l => l) unitEngine ⟨none, none⟩
        ⟨"u", some "p"⟩ (some (.authenticationSasl ["SCRAM-SHA-256-PLUS"])) =
      .ok (.sendingSasl (), [.saslInitialResponse "SCRAM-SHA-256" []]) :=
  scram_plus_downgrade unitEngine (fun l => l) ⟨none, none⟩ ⟨"u", some "p"⟩ "p"
    ["SCRAM-SHA-256-PLUS"] rfl rfl rfl (by decide) (by decide)

/-- Claim C10: on an AuthenticationSasl message, the missing-password
check precedes the inspection of the advertised mechanism list: with no
password configured the handshake fails with the missing-credential error
for every advertised list, including one with no usable mechanism. -/
theorem sasl_missing_password_first {σ : Type} (E : ScramEngine σ)
    (md5 : List Nat → List Nat) (stream : StreamInfo) (user : User)
    (mechanisms : List String) (h : user.password = none) :
    poll_reading_auth md5 E stream user (some (.authenticationSasl mechanisms)) =
      .error (.connect "a password was requested but not provided") := by
  simp [poll_reading_auth, h, missing_password]

/-- Claim C10 witness: empty advertised list (no usable mechanism), no
password. -/
theorem sasl_missing_password_first_witness :
    poll_reading_auth (σ := Unit) (fun l => l) unitEngine ⟨none, none⟩
        ⟨"u", none⟩ (some (.authenticationSasl [])) =
      .error (.connect "a password was requested but not provided") :=
  sasl_missing_password_first unitEngine (fun l => l) ⟨none, none⟩ ⟨"u", none⟩
    [] rfl

end Handshake
